import Mathlib

/-!
Shallow embedding of `rust-lib/flowy-ot/src/operation.rs`: the `Operation`
sum type (Delete / Retain / Insert), the `OpBuilder` fluent constructor, and
the per-operation serialization contract, together with proofs of the
specified properties.
-/

namespace FlowyOt

/-- Modelled from the spec: `Attributes` is an external collaborator (defined
in the sibling `attributes` module, not part of this core) — a mapping from
formatting key to formatting value exposing an emptiness test and
equality/copy semantics. We model it as an association list of string pairs. -/
structure Attributes where
  entries : List (String × String)
deriving DecidableEq, Repr

/-- Modelled from the spec: the emptiness test on `Attributes`. -/
def Attributes.is_empty (a : Attributes) : Bool := a.entries.isEmpty

/-- Embeds `struct Retain { num: u64, attributes: Option<Attributes> }`.
`u64` is modelled as `Nat` (all source arithmetic on it is non-wrapping). -/
structure Retain where
  num : Nat
  attributes : Option Attributes
deriving DecidableEq, Repr

/-- Embeds `struct Insert { s: String, attributes: Option<Attributes> }`.
The Rust `String` (valid UTF-8) is modelled as a Lean `String`, whose
`data` field is its sequence of Unicode scalar values. -/
structure Insert where
  s : String
  attributes : Option Attributes
deriving DecidableEq, Repr

/-- Embeds `enum Operation { Delete(u64), Retain(Retain), Insert(Insert) }`. -/
inductive Operation where
  | Delete (n : Nat)
  | Retain (r : FlowyOt.Retain)
  | Insert (i : FlowyOt.Insert)
deriving DecidableEq, Repr

/-- Embeds `impl From<u64> for Retain` (attributes default to `None`). -/
def Retain.fromNum (n : Nat) : Retain := { num := n, attributes := none }

/-- Embeds `impl From<&str> for Insert` (attributes default to `None`). -/
def Insert.fromStr (s : String) : Insert := { s := s, attributes := none }

/-- One byte of a UTF-8 encoded string, modelled as a `Nat` below 256.
`isCont b` holds exactly for UTF-8 continuation bytes (`0x80 ≤ b < 0xC0`). -/
def isCont (b : Nat) : Bool := decide (0x80 ≤ b) && decide (b < 0xC0)

/-- Modelled from the external `bytecount` crate: `num_chars(bytes)` counts
the bytes that are not UTF-8 continuation bytes, which on valid UTF-8 input
is the number of Unicode scalar values encoded. -/
def numChars : List Nat → Nat
  | [] => 0
  | b :: bs => (if isCont b then 0 else 1) + numChars bs

/-- The standard UTF-8 encoding of one Unicode scalar value, as byte values. -/
def encodeChar (c : Char) : List Nat :=
  let v := c.toNat
  if v < 0x80 then [v]
  else if v < 0x800 then [0xC0 + v / 64, 0x80 + v % 64]
  else if v < 0x10000 then [0xE0 + v / 4096, 0x80 + v / 64 % 64, 0x80 + v % 64]
  else [0xF0 + v / 262144, 0x80 + v / 4096 % 64, 0x80 + v / 64 % 64, 0x80 + v % 64]

/-- The UTF-8 byte sequence of a string: models Rust `str::as_bytes`. -/
def utf8Encode (s : String) : List Nat := (s.data.map encodeChar).flatten

/-- Embeds `Insert::as_bytes`: the UTF-8 bytes of the stored text. -/
def Insert.as_bytes (i : Insert) : List Nat := utf8Encode i.s

/-- Embeds `Insert::chars`: the (finite, restartable) sequence of Unicode
scalar values of the stored text, modelled as the list of its characters. -/
def Insert.chars (i : Insert) : List Char := i.s.data

/-- Embeds `Insert::num_chars`: `bytecount::num_chars(self.s.as_bytes())`. -/
def Insert.num_chars (i : Insert) : Nat := numChars i.as_bytes

/-- Embeds `Operation::is_delete`. -/
def Operation.is_delete : Operation → Bool
  | Operation.Delete _ => true
  | _ => false

/-- Embeds `Operation::is_noop`. -/
def Operation.is_noop : Operation → Bool
  | Operation.Retain _ => true
  | _ => false

/-- Embeds `Operation::get_attributes`. -/
def Operation.get_attributes : Operation → Option Attributes
  | Operation.Delete _ => none
  | Operation.Retain r => r.attributes
  | Operation.Insert i => i.attributes

/-- Embeds `Operation::set_attributes` (`&mut self` receiver becomes an
explicit old-state to new-state function). -/
def Operation.set_attributes (op : Operation) (attributes : Option Attributes) :
    Operation :=
  match op with
  | Operation.Delete n => Operation.Delete n
  | Operation.Retain r => Operation.Retain { r with attributes := attributes }
  | Operation.Insert i => Operation.Insert { i with attributes := attributes }

/-- Embeds `Operation::is_plain`. -/
def Operation.is_plain (op : Operation) : Bool := op.get_attributes.isNone

/-- Embeds `Operation::length`. -/
def Operation.length : Operation → Nat
  | Operation.Delete n => n
  | Operation.Retain r => r.num
  | Operation.Insert i => i.num_chars

/-- Embeds `Operation::is_empty`. -/
def Operation.is_empty (op : Operation) : Bool := op.length == 0

/-- Embeds `struct OpBuilder { ty: Operation, attrs: Option<Attributes> }`. -/
structure OpBuilder where
  ty : Operation
  attrs : Option Attributes
deriving DecidableEq, Repr

/-- Embeds `OpBuilder::new`. -/
def OpBuilder.new (ty : Operation) : OpBuilder := { ty := ty, attrs := none }

/-- Embeds `OpBuilder::retain` (`n.into()` builds a `Retain` with no
attributes). -/
def OpBuilder.retain (n : Nat) : OpBuilder :=
  OpBuilder.new (Operation.Retain (Retain.fromNum n))

/-- Embeds `OpBuilder::delete`. -/
def OpBuilder.delete (n : Nat) : OpBuilder := OpBuilder.new (Operation.Delete n)

/-- Embeds `OpBuilder::insert` (`s.into()` builds an `Insert` with no
attributes). -/
def OpBuilder.insert (s : String) : OpBuilder :=
  OpBuilder.new (Operation.Insert (Insert.fromStr s))

/-- Embeds `OpBuilder::attributes`: replaces the pending attribute set,
normalizing a present-but-empty set to absent. -/
def OpBuilder.attributes (b : OpBuilder) (attrs : Option Attributes) : OpBuilder :=
  match attrs with
  | none => { b with attrs := none }
  | some a =>
    match a.is_empty with
    | true => { b with attrs := none }
    | false => { b with attrs := some a }

/-- Embeds `OpBuilder::build`: applies the pending attribute set to the
target variant (a no-op for Delete). -/
def OpBuilder.build (b : OpBuilder) : Operation :=
  match b.ty with
  | Operation.Delete n => Operation.Delete n
  | Operation.Retain r => Operation.Retain { r with attributes := b.attrs }
  | Operation.Insert i => Operation.Insert { i with attributes := b.attrs }

/-- Embeds the free function `is_empty(attributes: &Option<Attributes>)`
used as the serde `skip_serializing_if` predicate. -/
def is_empty (attributes : Option Attributes) : Bool :=
  match attributes with
  | none => true
  | some attributes => attributes.is_empty

/-- The literal field name "retain" fixed by the serde rename on `Retain`. -/
def retainKey : String := "retain"

/-- The literal field name "insert" fixed by the serde rename on `Insert`. -/
def insertKey : String := "insert"

/-- The field name "attributes" (the source field name, not renamed). -/
def attributesKey : String := "attributes"

/-- Modelled from the spec: the structured encoding target (a JSON-style
object model) used by the external serde framework. -/
inductive Json where
  | num (n : Nat)
  | str (s : String)
  | obj (fields : List (String × Json))

/-- Modelled from the spec: the serde encoding of an `Attributes` map as an
object of key/value pairs. -/
def encodeAttributes (a : Attributes) : Json :=
  Json.obj (a.entries.map (fun kv => (kv.1, Json.str kv.2)))

/-- Modelled from the spec: decoding of an `Attributes` map. -/
def decodeAttributes : Json → Option Attributes
  | Json.obj fields =>
    (fields.mapM (fun (kv : String × Json) =>
      match kv.2 with
      | Json.str v => some (kv.1, v)
      | _ => none)).map Attributes.mk
  | _ => none

/-- Embeds the serde derive on `Retain`: `num` is renamed to the literal
field "retain"; the `attributes` field is skipped when `is_empty` holds. -/
def encodeRetain (r : Retain) : Json :=
  Json.obj ((retainKey, Json.num r.num) ::
    (match r.attributes with
     | none => []
     | some a =>
       match a.is_empty with
       | true => []
       | false => [(attributesKey, encodeAttributes a)]))

/-- Embeds the serde derive on `Insert`: `s` is renamed to the literal field
"insert"; the `attributes` field is skipped when `is_empty` holds. -/
def encodeInsert (i : Insert) : Json :=
  Json.obj ((insertKey, Json.str i.s) ::
    (match i.attributes with
     | none => []
     | some a =>
       match a.is_empty with
       | true => []
       | false => [(attributesKey, encodeAttributes a)]))

/-- Modelled from the spec: serde decoding of a `Retain` — the "retain"
field is required, the optional "attributes" field defaults to absent when
omitted from the encoded object. -/
def decodeRetain : Json → Option Retain
  | Json.obj fields =>
    match fields.lookup retainKey with
    | some (Json.num n) =>
      match fields.lookup attributesKey with
      | none => some { num := n, attributes := none }
      | some aj =>
        match decodeAttributes aj with
        | some a => some { num := n, attributes := some a }
        | none => none
    | _ => none
  | _ => none

/-- Modelled from the spec: serde decoding of an `Insert` — the "insert"
field is required, the optional "attributes" field defaults to absent when
omitted from the encoded object. -/
def decodeInsert : Json → Option Insert
  | Json.obj fields =>
    match fields.lookup insertKey with
    | some (Json.str s) =>
      match fields.lookup attributesKey with
      | none => some { s := s, attributes := none }
      | some aj =>
        match decodeAttributes aj with
        | some a => some { s := s, attributes := some a }
        | none => none
    | _ => none
  | _ => none

/-- Whether an encoded object carries a field of the given name. -/
def hasField (j : Json) (k : String) : Bool :=
  match j with
  | Json.obj fields => (fields.lookup k).isSome
  | _ => false

/-- The spec's notion of length for inserted text: the number of Unicode
scalar values of the string (stated from the spec's words, to be compared
with the source's byte-based `num_chars`). -/
def scalar_count (s : String) : Nat := s.data.length

/-! ## Helper lemmas -/

theorem char_toNat_lt (c : Char) : c.toNat < 1114112 := by
  rcases c.valid with h | ⟨h1, h2⟩
  · exact Nat.lt_trans h (by norm_num)
  · exact h2

/-- The UTF-8 encoding of any scalar value contains exactly one byte that is
not a continuation byte (its leading byte). -/
theorem numChars_encodeChar (c : Char) : numChars (encodeChar c) = 1 := by
  have hv : c.toNat < 1114112 := char_toNat_lt c
  simp only [encodeChar]
  split_ifs with h1 h2 h3 <;>
    simp only [numChars, isCont, Bool.and_eq_true, decide_eq_true_eq] <;>
    split_ifs <;> omega

theorem numChars_append (l1 l2 : List Nat) :
    numChars (l1 ++ l2) = numChars l1 + numChars l2 := by
  induction l1 with
  | nil => simp [numChars]
  | cons b bs ih => simp [numChars, ih]; omega

/-- Counting non-continuation bytes of a UTF-8 encoded string yields its
number of Unicode scalar values. -/
theorem numChars_utf8Encode (s : String) : numChars (utf8Encode s) = s.data.length := by
  unfold utf8Encode
  induction s.data with
  | nil => simp [numChars]
  | cons c cs ih =>
    simp only [List.map_cons, List.flatten_cons, numChars_append, ih,
      numChars_encodeChar, List.length_cons]
    omega

theorem Insert.num_chars_eq (i : FlowyOt.Insert) : i.num_chars = i.s.data.length :=
  numChars_utf8Encode i.s

/-! ## Claim theorems -/

/-- C1: `length()` returns the count for Delete, the `num` field for Retain,
and for Insert the number of Unicode scalar values of the text, never its
byte length; in particular `insert(s).build().length()` equals the scalar
count of `s`, and inserting the single character "é" yields length 1 even
though its UTF-8 form occupies 2 bytes. -/
theorem C1_length_counts_scalars :
    (∀ n : Nat, (Operation.Delete n).length = n) ∧
    (∀ r : Retain, (Operation.Retain r).length = r.num) ∧
    (∀ i : FlowyOt.Insert, (Operation.Insert i).length = scalar_count i.s) ∧
    (∀ s : String, ((OpBuilder.insert s).build).length = scalar_count s) ∧
    ((OpBuilder.insert ("é")).build).length = 1 ∧
    (utf8Encode ("é")).length = 2 :=
  ⟨fun _ => rfl, fun _ => rfl,
   fun i => Insert.num_chars_eq i,
   fun s => Insert.num_chars_eq { s := s, attributes := none },
   by decide, by decide⟩

/-- C3: `is_noop()` is true exactly for the Retain variant — including a
Retain carrying a non-empty attribute set — and false for every Delete and
every Insert. -/
theorem C3_is_noop_iff_retain :
    (∀ r : Retain, (Operation.Retain r).is_noop = true) ∧
    (∀ n : Nat, (Operation.Delete n).is_noop = false) ∧
    (∀ i : FlowyOt.Insert, (Operation.Insert i).is_noop = false) ∧
    (∀ op : Operation, op.is_noop = true ↔ ∃ r : Retain, op = Operation.Retain r) := by
  refine ⟨fun _ => rfl, fun _ => rfl, fun _ => rfl, fun op => ?_⟩
  cases op <;> simp [Operation.is_noop]

/-- C5: a Retain with count 5 and absent attributes encodes as an object
with the single field literally named "retain" (no "attributes" field), and
decoding that encoding yields a structurally equal Retain; the same
round-trip holds for an Insert of "hi" via the field literally named
"insert"; in general the "attributes" field appears in the encoding exactly
when the attribute set is present and non-empty. -/
theorem C5_serialization_round_trip :
    encodeRetain { num := 5, attributes := none } = Json.obj [(retainKey, Json.num 5)] ∧
    decodeRetain (encodeRetain { num := 5, attributes := none }) =
      some { num := 5, attributes := none } ∧
    hasField (encodeRetain { num := 5, attributes := none }) attributesKey = false ∧
    encodeInsert { s := ("hi"), attributes := none } =
      Json.obj [(insertKey, Json.str ("hi"))] ∧
    decodeInsert (encodeInsert { s := ("hi"), attributes := none }) =
      some { s := ("hi"), attributes := none } ∧
    hasField (encodeInsert { s := ("hi"), attributes := none }) attributesKey = false ∧
    (∀ r : Retain, hasField (encodeRetain r) attributesKey = ! is_empty r.attributes) ∧
    (∀ i : FlowyOt.Insert, hasField (encodeInsert i) attributesKey = ! is_empty i.attributes) := by
  refine ⟨rfl, by decide, by decide, rfl, by decide, by decide, fun r => ?_, fun i => ?_⟩
  · obtain ⟨n, a⟩ := r
    cases a with
    | none =>
      simp [encodeRetain, hasField, is_empty, List.lookup, retainKey, attributesKey]
    | some a =>
      cases h : a.is_empty <;>
        simp [encodeRetain, hasField, is_empty, h, List.lookup, retainKey, attributesKey]
  · obtain ⟨s, a⟩ := i
    cases a with
    | none =>
      simp [encodeInsert, hasField, is_empty, List.lookup, insertKey, attributesKey]
    | some a =>
      cases h : a.is_empty <;>
        simp [encodeInsert, hasField, is_empty, h, List.lookup, insertKey, attributesKey]

/-- C6: `retain(n).build().length() = n` and `delete(n).build().length() = n`
for every non-negative `n`. -/
theorem C6_retain_delete_length :
    (∀ n : Nat, ((OpBuilder.retain n).build).length = n) ∧
    (∀ n : Nat, ((OpBuilder.delete n).build).length = n) :=
  ⟨fun _ => rfl, fun _ => rfl⟩

/-- C7: `is_empty()` is true iff `length() = 0`; in particular it holds for
`delete(0).build()`, `retain(0).build()` and `insert("").build()`. -/
theorem C7_is_empty_iff :
    (∀ op : Operation, op.is_empty = true ↔ op.length = 0) ∧
    ((OpBuilder.delete 0).build.is_empty = true) ∧
    ((OpBuilder.retain 0).build.is_empty = true) ∧
    ((OpBuilder.insert ("")).build.is_empty = true) := by
  refine ⟨fun op => ?_, by decide, by decide, by decide⟩
  simp [Operation.is_empty]

/-- C9: `OpBuilder::new(op).build()` with no intervening `attributes()` call
overwrites the attribute field of a Retain or Insert with absent, discarding
any attributes already present on `op` (and leaves Delete unchanged); it
coincides with `op.set_attributes(None)`. -/
theorem C9_build_discards_attributes :
    (∀ op : Operation, (OpBuilder.new op).build = op.set_attributes none) ∧
    (∀ r : Retain, (OpBuilder.new (Operation.Retain r)).build =
      Operation.Retain { num := r.num, attributes := none }) ∧
    (∀ i : FlowyOt.Insert, (OpBuilder.new (Operation.Insert i)).build =
      Operation.Insert { s := i.s, attributes := none }) ∧
    (∀ n : Nat, (OpBuilder.new (Operation.Delete n)).build = Operation.Delete n) ∧
    (∀ op : Operation, ((OpBuilder.new op).build).get_attributes = none) := by
  refine ⟨fun op => ?_, fun _ => rfl, fun _ => rfl, fun _ => rfl, fun op => ?_⟩ <;>
    cases op <;> rfl

/-- C2: each `attributes()` call before `build()` replaces the pending
attribute set under the normalization rule (absent stores absent,
present-but-empty stores absent, present-and-non-empty stores as given) and
the last call wins; hence building after `attributes(present(empty))` yields
absent attributes, while building after `attributes(present(non_empty))`
yields that same non-empty set unchanged. -/
theorem C2_attributes_normalization :
    (∀ b : OpBuilder, (b.attributes none).attrs = none) ∧
    (∀ (b : OpBuilder) (a : Attributes),
      (b.attributes (some a)).attrs = if a.is_empty then none else some a) ∧
    (∀ (b : OpBuilder) (a : Option Attributes), (b.attributes a).ty = b.ty) ∧
    (∀ (b : OpBuilder) (a1 a2 : Option Attributes),
      (b.attributes a1).attributes a2 = b.attributes a2) ∧
    (∀ (b : OpBuilder) (a : Attributes), a.is_empty = true →
      ((b.attributes (some a)).build).get_attributes = none) ∧
    (∀ (n : Nat) (a : Attributes), a.is_empty = false →
      (((OpBuilder.retain n).attributes (some a)).build).get_attributes = some a) ∧
    (∀ (s : String) (a : Attributes), a.is_empty = false →
      (((OpBuilder.insert s).attributes (some a)).build).get_attributes = some a) := by
  refine ⟨fun b => rfl, fun b a => ?_, fun b a => ?_, fun b a1 a2 => ?_,
    fun b a h => ?_, fun n a h => ?_, fun s a h => ?_⟩
  · cases h : a.is_empty <;> simp [OpBuilder.attributes, h]
  · cases a with
    | none => rfl
    | some a => cases h : a.is_empty <;> simp [OpBuilder.attributes, h]
  · cases a1 with
    | none => cases a2 with
      | none => rfl
      | some a2 => cases h2 : a2.is_empty <;> simp [OpBuilder.attributes, h2]
    | some a1 => cases h1 : a1.is_empty <;> cases a2 with
      | none => simp [OpBuilder.attributes, h1]
      | some a2 => cases h2 : a2.is_empty <;> simp [OpBuilder.attributes, h1, h2]
  · obtain ⟨ty, attrs⟩ := b
    cases ty <;> simp [OpBuilder.attributes, h, OpBuilder.build, Operation.get_attributes]
  · simp [OpBuilder.retain, OpBuilder.new, OpBuilder.attributes, h,
      OpBuilder.build, Operation.get_attributes]
  · simp [OpBuilder.insert, OpBuilder.new, OpBuilder.attributes, h,
      OpBuilder.build, Operation.get_attributes]

/-- Witness for C2 at concrete inputs: the empty set `{}` and the non-empty
set `{bold ↦ true}` on a retain-seeded builder. -/
theorem C2_attributes_normalization_witness :
    (((OpBuilder.retain 1).attributes (some ⟨[]⟩)).build).get_attributes = none ∧
    (((OpBuilder.retain 1).attributes (some ⟨[("bold", "true")]⟩)).build).get_attributes
      = some ⟨[("bold", "true")]⟩ ∧
    (((OpBuilder.insert ("x")).attributes (some ⟨[("bold", "true")]⟩)).build).get_attributes
      = some ⟨[("bold", "true")]⟩ :=
  ⟨C2_attributes_normalization.2.2.2.2.1 (OpBuilder.retain 1) ⟨[]⟩ (by decide),
   C2_attributes_normalization.2.2.2.2.2.1 1 ⟨[("bold", "true")]⟩ (by decide),
   C2_attributes_normalization.2.2.2.2.2.2 ("x") ⟨[("bold", "true")]⟩ (by decide)⟩

/-- C4: `set_attributes(a)` leaves a Delete unchanged and overwrites the
attribute field of a Retain or Insert with `a` verbatim — no empty-to-absent
normalization — so a following `get_attributes()` returns `a`, even when `a`
is a present-but-empty set. -/
theorem C4_set_attributes_verbatim :
    (∀ (n : Nat) (a : Option Attributes),
      (Operation.Delete n).set_attributes a = Operation.Delete n) ∧
    (∀ (r : Retain) (a : Option Attributes),
      (Operation.Retain r).set_attributes a =
        Operation.Retain { num := r.num, attributes := a }) ∧
    (∀ (i : FlowyOt.Insert) (a : Option Attributes),
      (Operation.Insert i).set_attributes a =
        Operation.Insert { s := i.s, attributes := a }) ∧
    (∀ (op : Operation) (a : Option Attributes), op.is_delete = false →
      (op.set_attributes a).get_attributes = a) := by
  refine ⟨fun _ _ => rfl, fun _ _ => rfl, fun _ _ => rfl, fun op a h => ?_⟩
  cases op with
  | Delete n => simp [Operation.is_delete] at h
  | Retain r => rfl
  | Insert i => rfl

/-- Witness for C4: overwriting a Retain that carried a non-empty set with a
present-but-empty set stores that empty set verbatim. -/
theorem C4_set_attributes_verbatim_witness :
    ((Operation.Retain { num := 1, attributes := some ⟨[("bold", "true")]⟩ }).set_attributes
      (some ⟨[]⟩)).get_attributes = some ⟨[]⟩ :=
  C4_set_attributes_verbatim.2.2.2
    (Operation.Retain { num := 1, attributes := some ⟨[("bold", "true")]⟩ })
    (some ⟨[]⟩) (by decide)

/-- C8: every exposed operation is deterministic: on structurally equal
inputs every observer and constructor yields structurally equal outputs, and
observers (being functions of an unmodified receiver) leave it unchanged. -/
theorem C8_deterministic_pure :
    ∀ (op1 op2 : Operation) (b1 b2 : OpBuilder) (a1 a2 : Option Attributes),
      op1 = op2 → b1 = b2 → a1 = a2 →
      op1.length = op2.length ∧
      op1.get_attributes = op2.get_attributes ∧
      op1.is_noop = op2.is_noop ∧
      op1.is_delete = op2.is_delete ∧
      op1.is_plain = op2.is_plain ∧
      op1.is_empty = op2.is_empty ∧
      op1.set_attributes a1 = op2.set_attributes a2 ∧
      OpBuilder.new op1 = OpBuilder.new op2 ∧
      b1.attributes a1 = b2.attributes a2 ∧
      b1.build = b2.build := by
  intro op1 op2 b1 b2 a1 a2 hop hb ha
  subst hop; subst hb; subst ha
  exact ⟨rfl, rfl, rfl, rfl, rfl, rfl, rfl, rfl, rfl, rfl⟩

/-- Witness for C8 at concrete inputs. -/
theorem C8_deterministic_pure_witness :
    (Operation.Delete 3).length = (Operation.Delete 3).length ∧
    (Operation.Delete 3).get_attributes = (Operation.Delete 3).get_attributes ∧
    (Operation.Delete 3).is_noop = (Operation.Delete 3).is_noop ∧
    (Operation.Delete 3).is_delete = (Operation.Delete 3).is_delete ∧
    (Operation.Delete 3).is_plain = (Operation.Delete 3).is_plain ∧
    (Operation.Delete 3).is_empty = (Operation.Delete 3).is_empty ∧
    (Operation.Delete 3).set_attributes none = (Operation.Delete 3).set_attributes none ∧
    OpBuilder.new (Operation.Delete 3) = OpBuilder.new (Operation.Delete 3) ∧
    (OpBuilder.retain 2).attributes none = (OpBuilder.retain 2).attributes none ∧
    (OpBuilder.retain 2).build = (OpBuilder.retain 2).build :=
  C8_deterministic_pure (Operation.Delete 3) (Operation.Delete 3)
    (OpBuilder.retain 2) (OpBuilder.retain 2) none none rfl rfl rfl

/-- C10: `num_chars()` agrees with the length of the sequence yielded by
`chars()` on every Insert: the byte-based count equals the number of Unicode
scalar values of the text. -/
theorem C10_num_chars_eq_chars_length :
    ∀ i : FlowyOt.Insert, i.num_chars = (FlowyOt.Insert.chars i).length :=
  fun i => Insert.num_chars_eq i

end FlowyOt
